import Mathlib

/-!
Verification of the checkout/order-submission flow and the admin profile
tab controller of the kotilaatikko.fi repository.

The embedding below translates the relevant JavaScript/React code into
Lean definitions:

* `src/frontend/src/Views/Checkout.jsx` — the `Checkout` component:
  the `customerInfo` initial state, the `handleSubmit` handler (field
  validation, the `klarna` / `paypal` / `dummy` payment branches, the
  surrounding try/catch/finally), and the top-level render decision
  (empty-cart short-circuit, Klarna snippet vs. form).
* the admin `Profile` view — `renderTabContent`, the three-way tab
  switch.

Asynchronous network calls (`createKlarnaOrder`, `fetch` of the orders
endpoint) are modelled by an environment record supplying each call's
outcome; the state updates performed via React `set*` functions and the
side effects (requests issued, navigation, alerts) are collected in an
explicit result record.  JavaScript string truthiness is modelled
explicitly: a `String` is truthy iff it is non-empty, and an absent
(`undefined`) value is represented by `Option.none`, which is falsy.
-/

namespace Kotilaatikko

/-- JS truthiness of a possibly-absent string value:
`none` models `undefined` (falsy); `some s` is truthy iff `s` is
non-empty. -/
def optTruthy : Option String → Bool
  | none => false
  | some s => s ≠ ""

/-- `CartItem`: an entry of the cart store, `\x7bid, name, image, price,
quantity\x7d`.  Prices are JS numbers; no claim depends on their
arithmetic, so they are embedded as integers. -/
structure CartItem where
  id : Nat
  name : String
  image : String
  price : Int
  quantity : Nat
  deriving Repr, DecidableEq

/-- `CustomerInfo`: the `customerInfo` state object of `Checkout`. -/
structure CustomerInfo where
  firstName : String
  lastName : String
  email : String
  address : String
  postalCode : String
  city : String
  country : String
  phone : String
  deriving Repr, DecidableEq

/-- The initial value passed to `useState` for `customerInfo`
(Checkout.jsx lines 50–59): all fields are the empty string except
`country`, which is initialised to `'Finland'`. -/
def initialCustomerInfo : CustomerInfo :=
  { firstName := ""
    lastName := ""
    email := ""
    address := ""
    postalCode := ""
    city := ""
    country := "Finland"
    phone := "" }

/-- Dynamic property access `customerInfo[field]` for the named fields of
the state object.  An unknown property name would yield `undefined` in
JS; both `undefined` and `""` are falsy, so the default `""` is faithful
for the falsiness test the validation performs. -/
def fieldValue (c : CustomerInfo) : String → String
  | "firstName" => c.firstName
  | "lastName" => c.lastName
  | "email" => c.email
  | "address" => c.address
  | "postalCode" => c.postalCode
  | "city" => c.city
  | "country" => c.country
  | "phone" => c.phone
  | _ => ""

/-- The `requiredFields` array of `handleSubmit` (lines 97–105). -/
def requiredFields : List String :=
  ["firstName", "lastName", "email", "address", "postalCode", "city",
   "country"]

/-- `missingFields = requiredFields.filter((field) => !customerInfo[field])`
(lines 106–108). -/
def missingFields (c : CustomerInfo) : List String :=
  requiredFields.filter (fun field => fieldValue c field = "")

/-- `handleInputChange` (lines 74–77): functional update of one named
field of `customerInfo`. -/
def handleInputChange (c : CustomerInfo) (name value : String) : CustomerInfo :=
  match name with
  | "firstName" => { c with firstName := value }
  | "lastName" => { c with lastName := value }
  | "email" => { c with email := value }
  | "address" => { c with address := value }
  | "postalCode" => { c with postalCode := value }
  | "city" => { c with city := value }
  | "country" => { c with country := value }
  | "phone" => { c with phone := value }
  | _ => c

/-- The user profile record read by `fetchUserData`; each field may be
absent (`undefined`) on the fetched user object. -/
structure UserProfile where
  firstName : Option String
  lastName : Option String
  email : Option String
  address : Option String
  postalCode : Option String
  city : Option String
  country : Option String
  phone : Option String
  deriving Repr, DecidableEq

/-- The `setCustomerInfo` call of `fetchUserData` (lines 214–223):
each field is pre-filled from the user profile with `|| ''` fallback,
except `country`, whose fallback is `'Finland'`. -/
def prefillFromUser (u : UserProfile) : CustomerInfo :=
  { firstName := (u.firstName.filter (· ≠ "")).getD ""
    lastName := (u.lastName.filter (· ≠ "")).getD ""
    email := (u.email.filter (· ≠ "")).getD ""
    address := (u.address.filter (· ≠ "")).getD ""
    postalCode := (u.postalCode.filter (· ≠ "")).getD ""
    city := (u.city.filter (· ≠ "")).getD ""
    country := (u.country.filter (· ≠ "")).getD "Finland"
    phone := (u.phone.filter (· ≠ "")).getD "" }

/-- Response object of `createKlarnaOrder`: `\x7bhtml_snippet?,
redirect_url?\x7d`, either property possibly absent. -/
structure KlarnaResponse where
  html_snippet : Option String
  redirect_url : Option String
  deriving Repr, DecidableEq

/-- The request body `\x7bitems, total, customer\x7d` passed to
`createKlarnaOrder` (lines 127–131). -/
structure KlarnaRequest where
  items : List CartItem
  total : Int
  customer : CustomerInfo
  deriving Repr, DecidableEq

/-- The `fetch` of the orders endpoint (lines 150–162): URL, the
`Authorization` header value, and the JSON body `\x7bmeals: cartItems\x7d`. -/
structure OrdersRequest where
  url : String
  authHeader : String
  meals : List CartItem
  deriving Repr, DecidableEq

/-- Outcome of one asynchronous call: either the promise rejects with an
error message, or it resolves to a value. -/
inductive CallResult (α : Type) where
  | reject (msg : String)
  | resolve (v : α)
  deriving Repr, DecidableEq

/-- Environment of one `handleSubmit` run: the outcome of the Klarna
call and the outcome of the orders `fetch` (whose resolved value is the
`response.ok` flag — the only part of the response the code reads). -/
structure SubmitEnv where
  klarna : CallResult KlarnaResponse
  orders : CallResult Bool
  deriving Repr, DecidableEq

/-- Inputs captured by `handleSubmit` from component state and context:
cart contents and total, the customer form, the selected payment method,
the API base URL (`VITE_AUTH_API`) and the stored token
(`localStorage.getItem('token')`, `none` when absent). -/
structure SubmitInput where
  cartItems : List CartItem
  cartTotal : Int
  customerInfo : CustomerInfo
  paymentMethod : String
  apiBase : String
  token : Option String
  deriving Repr, DecidableEq

/-- String interpolation of `localStorage.getItem('token')` into the
header template: `null` becomes the string `"null"`. -/
def tokenString : Option String → String
  | none => "null"
  | some t => t

/-- Result of one `handleSubmit` run: the final values written to the
`error` and `isProcessing` states, the argument of the `setKlarnaSnippet`
call if one was made (`none` = never called; `some v` = called with the
possibly-absent snippet `v`), and the observable effects: every Klarna
request and orders request issued, every navigation target, every alert
shown. -/
structure SubmitResult where
  error : Option String
  isProcessing : Bool
  klarnaSnippetSet : Option (Option String)
  klarnaRequests : List KlarnaRequest
  ordersRequests : List OrdersRequest
  navigations : List String
  alerts : List String
  deriving Repr, DecidableEq

/-- `handleSubmit` (Checkout.jsx lines 92–179), as a pure function of
its inputs and the environment.  The `finally` clause always resets
`isProcessing` to `false`, so every branch of the embedding records
`isProcessing := false` as the final value.  Every `throw` inside the
`try` block is caught by the single `catch`, which sets
`error` to `'Maksuvirhe: ' + err.message`. -/
def handleSubmit (inp : SubmitInput) (env : SubmitEnv) : SubmitResult :=
  let missing := missingFields inp.customerInfo
  if missing.length > 0 then
    { error := some ("Puuttuvat kentät: " ++ String.intercalate ", " missing)
      isProcessing := false
      klarnaSnippetSet := none
      klarnaRequests := []
      ordersRequests := []
      navigations := []
      alerts := [] }
  else if inp.paymentMethod = "klarna" then
    let req : KlarnaRequest :=
      { items := inp.cartItems, total := inp.cartTotal,
        customer := inp.customerInfo }
    match env.klarna with
    | .reject msg =>
      { error := some ("Maksuvirhe: " ++ msg)
        isProcessing := false
        klarnaSnippetSet := none
        klarnaRequests := [req]
        ordersRequests := []
        navigations := []
        alerts := [] }
    | .resolve resp =>
      if ¬ optTruthy resp.html_snippet ∧ ¬ optTruthy resp.redirect_url then
        { error := some "Maksuvirhe: No valid payment URL received from Klarna"
          isProcessing := false
          klarnaSnippetSet := none
          klarnaRequests := [req]
          ordersRequests := []
          navigations := []
          alerts := [] }
      else
        { error := none
          isProcessing := false
          klarnaSnippetSet := some resp.html_snippet
          klarnaRequests := [req]
          ordersRequests := []
          navigations := []
          alerts := [] }
  else if inp.paymentMethod = "paypal" then
    { error := none
      isProcessing := false
      klarnaSnippetSet := none
      klarnaRequests := []
      ordersRequests := []
      navigations := []
      alerts := ["PayPal payment is not implemented yet."] }
  else if inp.paymentMethod = "dummy" then
    let req : OrdersRequest :=
      { url := inp.apiBase ++ "/orders"
        authHeader := "Bearer " ++ tokenString inp.token
        meals := inp.cartItems }
    match env.orders with
    | .reject msg =>
      { error := some ("Maksuvirhe: " ++ msg)
        isProcessing := false
        klarnaSnippetSet := none
        klarnaRequests := []
        ordersRequests := [req]
        navigations := []
        alerts := [] }
    | .resolve ok =>
      if ¬ ok then
        { error := some "Maksuvirhe: Tilausta ei voitu lähettää tietokantaan."
          isProcessing := false
          klarnaSnippetSet := none
          klarnaRequests := []
          ordersRequests := [req]
          navigations := []
          alerts := [] }
      else
        { error := none
          isProcessing := false
          klarnaSnippetSet := none
          klarnaRequests := []
          ordersRequests := [req]
          navigations := ["/confirmation"]
          alerts := [] }
  else
    { error := some "Maksuvirhe: Invalid payment method selected"
      isProcessing := false
      klarnaSnippetSet := none
      klarnaRequests := []
      ordersRequests := []
      navigations := []
      alerts := [] }

/-- Top-level render decision of `Checkout` (lines 181–193 and 259–265):
an empty cart renders the empty-cart state with a link back to the shop;
otherwise the checkout page renders either the Klarna snippet (when the
`klarnaSnippet` state is truthy) or the checkout form. -/
inductive CheckoutView where
  | emptyCart (shopLink : String)
  | klarnaSnippetView (snippet : String)
  | checkoutForm
  deriving Repr, DecidableEq

/-- The render function of `Checkout` restricted to the view selection:
`cartItems.length === 0` short-circuits to the empty-cart state with a
`Link` to `'/shop'`; otherwise the truthiness of `klarnaSnippet` selects
the inline snippet over the form. -/
def renderCheckout (cartItems : List CartItem) (klarnaSnippet : Option String) :
    CheckoutView :=
  if cartItems.length = 0 then .emptyCart "/shop"
  else if optTruthy klarnaSnippet then
    .klarnaSnippetView (klarnaSnippet.getD "")
  else .checkoutForm

/-- The three admin tab panels of the `Profile` view. -/
inductive TabPanel where
  | mealPackages
  | orderTracking
  | newsletter
  deriving Repr, DecidableEq

/-- `renderTabContent` of the admin `Profile` view: a switch on
`activeTab` returning the panel of the active tab, or nothing
(`return null`) for any other value. -/
def renderTabContent (activeTab : String) : Option TabPanel :=
  match activeTab with
  | "mealPackages" => some .mealPackages
  | "orderTracking" => some .orderTracking
  | "newsletter" => some .newsletter
  | _ => none

end Kotilaatikko

namespace Kotilaatikko

/-- A sample cart item for concrete witnesses. -/
def sampleItem : CartItem :=
  { id := 1, name := "Laatikko", image := "laatikko.jpg", price := 25,
    quantity := 2 }

/-- A fully populated customer record (phone left empty) for concrete
witnesses. -/
def filledCustomer : CustomerInfo :=
  { firstName := "Matti", lastName := "Meikäläinen",
    email := "matti@example.com", address := "Katu 1",
    postalCode := "00100", city := "Helsinki", country := "FI",
    phone := "" }

/-- A benign environment: Klarna resolves with a snippet, orders resolve
ok. -/
def sampleEnv : SubmitEnv :=
  { klarna := .resolve { html_snippet := some "<div>klarna</div>",
                         redirect_url := none }
    orders := .resolve true }

/-- A customer record with `firstName` missing, for the validation
witness. -/
def customerMissingFirst : CustomerInfo :=
  { filledCustomer with firstName := "" }

/-- A sample submission input from the filled customer paying with
Klarna. -/
def sampleInputK : SubmitInput :=
  { cartItems := [sampleItem], cartTotal := 50,
    customerInfo := filledCustomer, paymentMethod := "klarna",
    apiBase := "http://localhost:3000/api/v1", token := some "tok" }

end Kotilaatikko

namespace Kotilaatikko

/-- C1: a submission with at least one required `CustomerInfo` field
empty sets an error listing exactly the missing field names, issues no
network request (no Klarna call, no orders POST), and ends with
`isProcessing` reset to `false`. -/
theorem missing_required_field_blocks_submission
    (inp : SubmitInput) (env : SubmitEnv) (f : String)
    (hf : f ∈ requiredFields)
    (hempty : fieldValue inp.customerInfo f = "") :
    (handleSubmit inp env).error =
      some ("Puuttuvat kentät: " ++
        String.intercalate ", " (missingFields inp.customerInfo)) ∧
    (handleSubmit inp env).klarnaRequests = [] ∧
    (handleSubmit inp env).ordersRequests = [] ∧
    (handleSubmit inp env).isProcessing = false := by
  have hmem : f ∈ missingFields inp.customerInfo :=
    List.mem_filter.mpr ⟨hf, by simp [hempty]⟩
  have hlen : (missingFields inp.customerInfo).length > 0 :=
    List.length_pos.mpr (List.ne_nil_of_mem hmem)
  unfold handleSubmit
  simp only [if_pos hlen]
  simp

/-- C1 witness: with `firstName` empty the error lists that field and no
request is issued. -/
theorem missing_required_field_blocks_submission_witness :
    (handleSubmit { sampleInputK with customerInfo := customerMissingFirst }
        sampleEnv).error =
      some ("Puuttuvat kentät: " ++ String.intercalate ", "
        (missingFields customerMissingFirst)) ∧
    (handleSubmit { sampleInputK with customerInfo := customerMissingFirst }
        sampleEnv).klarnaRequests = [] ∧
    (handleSubmit { sampleInputK with customerInfo := customerMissingFirst }
        sampleEnv).ordersRequests = [] ∧
    (handleSubmit { sampleInputK with customerInfo := customerMissingFirst }
        sampleEnv).isProcessing = false :=
  missing_required_field_blocks_submission
    { sampleInputK with customerInfo := customerMissingFirst } sampleEnv
    "firstName" (by decide) (by decide)

/-- C4: an empty cart renders the empty-cart state with a link back to
the shop, not the checkout form, whatever the `klarnaSnippet` state. -/
theorem empty_cart_renders_empty_state (klarnaSnippet : Option String) :
    renderCheckout [] klarnaSnippet = .emptyCart "/shop" ∧
    renderCheckout [] klarnaSnippet ≠ .checkoutForm := by
  constructor
  · simp [renderCheckout]
  · simp [renderCheckout]

/-- C5: `renderTabContent` returns exactly the panel of the active tab
for each of the three tab values, and, returning a single optional
panel, never yields two panels for one tab value. -/
theorem tab_content_is_exclusive :
    renderTabContent "mealPackages" = some .mealPackages ∧
    renderTabContent "orderTracking" = some .orderTracking ∧
    renderTabContent "newsletter" = some .newsletter ∧
    (∀ tab : String, ∀ p q : TabPanel,
      renderTabContent tab = some p → renderTabContent tab = some q →
      p = q) := by
  refine ⟨rfl, rfl, rfl, ?_⟩
  intro tab p q hp hq
  rw [hp] at hq
  exact Option.some.inj hq

/-- C5 witness: at the concrete tab `'newsletter'` the selected panel is
the newsletter panel and it is unique. -/
theorem tab_content_is_exclusive_witness :
    renderTabContent "newsletter" = some TabPanel.newsletter ∧
    TabPanel.newsletter = TabPanel.newsletter :=
  ⟨tab_content_is_exclusive.2.2.1,
   tab_content_is_exclusive.2.2.2 "newsletter" TabPanel.newsletter
     TabPanel.newsletter rfl rfl⟩

end Kotilaatikko

namespace Kotilaatikko

/-- Helper: a run that passes validation does not take the
missing-fields branch. -/
theorem handleSubmit_valid_not_missing (c : CustomerInfo)
    (hvalid : missingFields c = []) : ¬ (missingFields c).length > 0 := by
  simp [hvalid]

/-- Helper: under passed validation with method `klarna`, exactly one
Klarna request with body `\x7bitems, total, customer\x7d` is issued,
whatever the call's outcome. -/
theorem handleSubmit_klarna_requests (inp : SubmitInput) (env : SubmitEnv)
    (hvalid : missingFields inp.customerInfo = [])
    (hpm : inp.paymentMethod = "klarna") :
    (handleSubmit inp env).klarnaRequests =
      [{ items := inp.cartItems, total := inp.cartTotal,
         customer := inp.customerInfo }] := by
  unfold handleSubmit
  simp only [if_neg (handleSubmit_valid_not_missing _ hvalid), hpm, if_pos rfl,
    if_true]
  split <;> (try split) <;> simp

/-- Helper: under passed validation with method `klarna` and a resolved
Klarna call, the run's result is determined by the presence of
`html_snippet` / `redirect_url`. -/
theorem handleSubmit_klarna_resolve (inp : SubmitInput) (env : SubmitEnv)
    (resp : KlarnaResponse)
    (hvalid : missingFields inp.customerInfo = [])
    (hpm : inp.paymentMethod = "klarna")
    (henv : env.klarna = .resolve resp) :
    handleSubmit inp env =
      (if ¬ optTruthy resp.html_snippet ∧ ¬ optTruthy resp.redirect_url then
        { error := some "Maksuvirhe: No valid payment URL received from Klarna"
          isProcessing := false
          klarnaSnippetSet := none
          klarnaRequests := [{ items := inp.cartItems, total := inp.cartTotal,
                               customer := inp.customerInfo }]
          ordersRequests := []
          navigations := []
          alerts := [] }
      else
        { error := none
          isProcessing := false
          klarnaSnippetSet := some resp.html_snippet
          klarnaRequests := [{ items := inp.cartItems, total := inp.cartTotal,
                               customer := inp.customerInfo }]
          ordersRequests := []
          navigations := []
          alerts := [] }) := by
  unfold handleSubmit
  simp only [if_neg (handleSubmit_valid_not_missing _ hvalid), hpm, if_pos rfl,
    if_true, henv]

/-- Helper: under passed validation with method `dummy`, the run is
determined by the orders call's outcome, and exactly one orders request
is issued. -/
theorem handleSubmit_dummy_run (inp : SubmitInput) (env : SubmitEnv)
    (hvalid : missingFields inp.customerInfo = [])
    (hpm : inp.paymentMethod = "dummy") :
    handleSubmit inp env =
      (let req : OrdersRequest :=
        { url := inp.apiBase ++ "/orders"
          authHeader := "Bearer " ++ tokenString inp.token
          meals := inp.cartItems }
      match env.orders with
      | .reject msg =>
        { error := some ("Maksuvirhe: " ++ msg), isProcessing := false,
          klarnaSnippetSet := none, klarnaRequests := [],
          ordersRequests := [req], navigations := [], alerts := [] }
      | .resolve ok =>
        if ¬ ok then
          { error := some "Maksuvirhe: Tilausta ei voitu lähettää tietokantaan."
            isProcessing := false, klarnaSnippetSet := none,
            klarnaRequests := [], ordersRequests := [req],
            navigations := [], alerts := [] }
        else
          { error := none, isProcessing := false, klarnaSnippetSet := none,
            klarnaRequests := [], ordersRequests := [req],
            navigations := ["/confirmation"], alerts := [] }) := by
  unfold handleSubmit
  simp only [if_neg (handleSubmit_valid_not_missing _ hvalid), hpm]
  simp

end Kotilaatikko

namespace Kotilaatikko

/-- A Klarna response with neither `html_snippet` nor `redirect_url`. -/
def respNeither : KlarnaResponse :=
  { html_snippet := none, redirect_url := none }

/-- Environment whose Klarna call resolves to `respNeither`. -/
def envNeither : SubmitEnv :=
  { klarna := .resolve respNeither, orders := .resolve true }

/-- A Klarna response carrying only a `redirect_url`. -/
def respRedirect : KlarnaResponse :=
  { html_snippet := none, redirect_url := some "https://klarna.example/pay" }

/-- Environment whose Klarna call resolves to `respRedirect`. -/
def envRedirect : SubmitEnv :=
  { klarna := .resolve respRedirect, orders := .resolve true }

/-- The sample submission input paying with the dummy method. -/
def sampleInputD : SubmitInput :=
  { sampleInputK with paymentMethod := "dummy" }

/-- C2: a validated Klarna submission whose response has neither an
`html_snippet` nor a `redirect_url` surfaces the Klarna error in the
error state and never calls `setKlarnaSnippet`; any response with at
least one of the two raises no error and stores the snippet. -/
theorem klarna_missing_urls_is_error
    (inp : SubmitInput) (env : SubmitEnv) (resp : KlarnaResponse)
    (hvalid : missingFields inp.customerInfo = [])
    (hpm : inp.paymentMethod = "klarna")
    (henv : env.klarna = .resolve resp) :
    (optTruthy resp.html_snippet = false ∧ optTruthy resp.redirect_url = false →
      (handleSubmit inp env).error =
        some "Maksuvirhe: No valid payment URL received from Klarna" ∧
      (handleSubmit inp env).klarnaSnippetSet = none) ∧
    (optTruthy resp.html_snippet = true ∨ optTruthy resp.redirect_url = true →
      (handleSubmit inp env).error = none ∧
      (handleSubmit inp env).klarnaSnippetSet = some resp.html_snippet) := by
  rw [handleSubmit_klarna_resolve inp env resp hvalid hpm henv]
  constructor
  · rintro ⟨h1, h2⟩
    rw [if_pos (by simp [h1, h2])]
    exact ⟨rfl, rfl⟩
  · intro h
    rw [if_neg (by rcases h with h | h <;> simp [h])]
    exact ⟨rfl, rfl⟩

/-- C2 witness: the concrete response with both fields absent yields the
Klarna error and no snippet update. -/
theorem klarna_missing_urls_is_error_witness :
    (handleSubmit sampleInputK envNeither).error =
      some "Maksuvirhe: No valid payment URL received from Klarna" ∧
    (handleSubmit sampleInputK envNeither).klarnaSnippetSet = none :=
  (klarna_missing_urls_is_error sampleInputK envNeither respNeither
    (by decide) rfl rfl).1 (by decide)

/-- C7: the body of the Klarna request of a validated Klarna submission
is exactly `\x7bitems, total, customer\x7d` from the current cart items,
cart total and customer info — and exactly one such request is issued. -/
theorem klarna_request_is_items_total_customer
    (inp : SubmitInput) (env : SubmitEnv)
    (hvalid : missingFields inp.customerInfo = [])
    (hpm : inp.paymentMethod = "klarna") :
    (handleSubmit inp env).klarnaRequests =
      [{ items := inp.cartItems, total := inp.cartTotal,
         customer := inp.customerInfo }] :=
  handleSubmit_klarna_requests inp env hvalid hpm

/-- C7 witness: the concrete sample submission issues exactly its own
cart, total and customer as the Klarna request body. -/
theorem klarna_request_is_items_total_customer_witness :
    (handleSubmit sampleInputK sampleEnv).klarnaRequests =
      [{ items := sampleInputK.cartItems, total := sampleInputK.cartTotal,
         customer := sampleInputK.customerInfo }] :=
  klarna_request_is_items_total_customer sampleInputK sampleEnv
    (by decide) rfl

/-- C10: a validated Klarna submission whose response has a
`redirect_url` but no truthy `html_snippet` raises no error, stores the
absent (falsy) snippet — so a subsequent render with a non-empty cart
still shows the form, not an inline snippet — and never navigates, so
the `redirect_url` is unused. -/
theorem klarna_redirect_only_is_silent
    (inp : SubmitInput) (env : SubmitEnv) (resp : KlarnaResponse)
    (hvalid : missingFields inp.customerInfo = [])
    (hpm : inp.paymentMethod = "klarna")
    (henv : env.klarna = .resolve resp)
    (hsnip : optTruthy resp.html_snippet = false)
    (hred : optTruthy resp.redirect_url = true) :
    (handleSubmit inp env).error = none ∧
    (handleSubmit inp env).klarnaSnippetSet = some resp.html_snippet ∧
    (handleSubmit inp env).navigations = [] ∧
    (∀ items : List CartItem, items ≠ [] →
      renderCheckout items resp.html_snippet = .checkoutForm) := by
  rw [handleSubmit_klarna_resolve inp env resp hvalid hpm henv,
      if_neg (by simp [hred])]
  refine ⟨rfl, rfl, rfl, ?_⟩
  intro items hne
  unfold renderCheckout
  rw [if_neg (by simp [List.length_eq_zero, hne]),
      if_neg (by simp [hsnip])]

/-- C10 witness: the concrete redirect-only response yields no error, a
falsy snippet, no navigation, and the form on a non-empty cart. -/
theorem klarna_redirect_only_is_silent_witness :
    (handleSubmit sampleInputK envRedirect).error = none ∧
    (handleSubmit sampleInputK envRedirect).klarnaSnippetSet =
      some respRedirect.html_snippet ∧
    (handleSubmit sampleInputK envRedirect).navigations = [] ∧
    (∀ items : List CartItem, items ≠ [] →
      renderCheckout items respRedirect.html_snippet = .checkoutForm) :=
  klarna_redirect_only_is_silent sampleInputK envRedirect respRedirect
    (by decide) rfl rfl (by decide) (by decide)

/-- C3: a validated dummy-payment submission POSTs the cart items to the
orders endpoint with a bearer `Authorization` header; a non-ok response
surfaces the generic submission error without navigating; an ok response
navigates to `/confirmation`. -/
theorem dummy_payment_flow (inp : SubmitInput) (env : SubmitEnv)
    (hvalid : missingFields inp.customerInfo = [])
    (hpm : inp.paymentMethod = "dummy") :
    (handleSubmit inp env).ordersRequests =
      [{ url := inp.apiBase ++ "/orders"
         authHeader := "Bearer " ++ tokenString inp.token
         meals := inp.cartItems }] ∧
    (env.orders = .resolve false →
      (handleSubmit inp env).error =
        some "Maksuvirhe: Tilausta ei voitu lähettää tietokantaan." ∧
      (handleSubmit inp env).navigations = []) ∧
    (env.orders = .resolve true →
      (handleSubmit inp env).error = none ∧
      (handleSubmit inp env).navigations = ["/confirmation"]) := by
  rw [handleSubmit_dummy_run inp env hvalid hpm]
  refine ⟨?_, ?_, ?_⟩
  · rcases ho : env.orders with msg | ok
    · simp
    · cases ok <;> simp
  · intro h; rw [h]; simp
  · intro h; rw [h]; simp

/-- C3 witness: the concrete dummy submission with an ok orders response
issues the orders POST and navigates to the confirmation view. -/
theorem dummy_payment_flow_witness :
    (handleSubmit sampleInputD sampleEnv).ordersRequests =
      [{ url := sampleInputD.apiBase ++ "/orders"
         authHeader := "Bearer " ++ tokenString sampleInputD.token
         meals := sampleInputD.cartItems }] ∧
    (handleSubmit sampleInputD sampleEnv).navigations = ["/confirmation"] :=
  ⟨(dummy_payment_flow sampleInputD sampleEnv (by decide) rfl).1,
   ((dummy_payment_flow sampleInputD sampleEnv (by decide) rfl).2.2 rfl).2⟩

end Kotilaatikko

namespace Kotilaatikko

/-- C6 counterexample: the `customerInfo` state is not created with
every field empty — `country` is initialised to `'Finland'`. -/
theorem customer_info_not_created_all_empty :
    initialCustomerInfo.country = "Finland" ∧
    initialCustomerInfo.country ≠ "" := by
  decide

/-- C6 (amended): the `customerInfo` state is created with every field
empty except `country`, which defaults to `'Finland'`; it is filled by
form input (`handleInputChange` writes the named field) or by
pre-filling from the authenticated user's profile (with `'Finland'` as
the `country` fallback). -/
theorem customer_info_lifecycle :
    initialCustomerInfo.firstName = "" ∧ initialCustomerInfo.lastName = "" ∧
    initialCustomerInfo.email = "" ∧ initialCustomerInfo.address = "" ∧
    initialCustomerInfo.postalCode = "" ∧ initialCustomerInfo.city = "" ∧
    initialCustomerInfo.phone = "" ∧
    initialCustomerInfo.country = "Finland" ∧
    (∀ c value, ∀ name ∈ ["firstName", "lastName", "email", "address",
        "postalCode", "city", "country", "phone"],
      fieldValue (handleInputChange c name value) name = value) ∧
    (∀ u : UserProfile, u.country = none →
      (prefillFromUser u).country = "Finland") := by
  refine ⟨rfl, rfl, rfl, rfl, rfl, rfl, rfl, rfl, ?_, ?_⟩
  · intro c value name hname
    fin_cases hname <;> simp [handleInputChange, fieldValue]
  · intro u hu
    simp [prefillFromUser, hu]

/-- A fetched user profile carrying no data at all. -/
def emptyProfile : UserProfile :=
  { firstName := none
    lastName := none
    email := none
    address := none
    postalCode := none
    city := none
    country := none
    phone := none }

/-- C6 witness: a concrete form input writes the `email` field, and a
profile with no country pre-fills `'Finland'`. -/
theorem customer_info_lifecycle_witness :
    fieldValue (handleInputChange initialCustomerInfo "email" "a@b.fi")
      "email" = "a@b.fi" ∧
    (prefillFromUser emptyProfile).country = "Finland" :=
  ⟨customer_info_lifecycle.2.2.2.2.2.2.2.2.1 initialCustomerInfo "a@b.fi"
      "email" (by decide),
   customer_info_lifecycle.2.2.2.2.2.2.2.2.2 emptyProfile rfl⟩

/-- C9: the required-field check covers exactly the seven fields
`firstName`, `lastName`, `email`, `address`, `postalCode`, `city`,
`country` — `phone` is not required — so a submission with the seven
non-empty passes validation and reaches the payment branch even with an
empty phone. -/
theorem required_fields_exclude_phone
    (inp : SubmitInput) (env : SubmitEnv)
    (h1 : inp.customerInfo.firstName ≠ "")
    (h2 : inp.customerInfo.lastName ≠ "")
    (h3 : inp.customerInfo.email ≠ "")
    (h4 : inp.customerInfo.address ≠ "")
    (h5 : inp.customerInfo.postalCode ≠ "")
    (h6 : inp.customerInfo.city ≠ "")
    (h7 : inp.customerInfo.country ≠ "") :
    requiredFields = ["firstName", "lastName", "email", "address",
      "postalCode", "city", "country"] ∧
    "phone" ∉ requiredFields ∧
    missingFields inp.customerInfo = [] ∧
    (inp.paymentMethod = "klarna" →
      (handleSubmit inp env).klarnaRequests ≠ []) ∧
    (inp.paymentMethod = "dummy" →
      (handleSubmit inp env).ordersRequests ≠ []) := by
  have hmf : missingFields inp.customerInfo = [] := by
    simp [missingFields, requiredFields, fieldValue, h1, h2, h3, h4, h5, h6,
      h7]
  refine ⟨rfl, by decide, hmf, ?_, ?_⟩
  · intro hpm
    rw [handleSubmit_klarna_requests inp env hmf hpm]
    simp
  · intro hpm
    rw [handleSubmit_dummy_run inp env hmf hpm]
    rcases ho : env.orders with msg | ok
    · simp
    · cases ok <;> simp

/-- C9 witness: the filled customer has an empty phone, yet validation
passes and the Klarna branch is reached. -/
theorem required_fields_exclude_phone_witness :
    filledCustomer.phone = "" ∧
    missingFields sampleInputK.customerInfo = [] ∧
    (handleSubmit sampleInputK sampleEnv).klarnaRequests ≠ [] :=
  ⟨by decide,
   (required_fields_exclude_phone sampleInputK sampleEnv (by decide)
      (by decide) (by decide) (by decide) (by decide) (by decide)
      (by decide)).2.2.1,
   (required_fields_exclude_phone sampleInputK sampleEnv (by decide)
      (by decide) (by decide) (by decide) (by decide) (by decide)
      (by decide)).2.2.2.1 rfl⟩

end Kotilaatikko

namespace Kotilaatikko

/-- Environment whose Klarna call rejects (network failure). -/
def envReject : SubmitEnv :=
  { klarna := .reject "network down", orders := .resolve true }

/-- C8: every failure during submission — validation failure, a rejected
Klarna or orders call, missing Klarna fields, a non-ok orders status —
is surfaced as a string in the single `error` state; the handler always
returns normally with `isProcessing` reset, and no request is ever
retried (at most one request of each kind per run). -/
theorem all_failures_surfaced (inp : SubmitInput) (env : SubmitEnv) :
    ((missingFields inp.customerInfo).length > 0 →
      (handleSubmit inp env).error =
        some ("Puuttuvat kentät: " ++
          String.intercalate ", " (missingFields inp.customerInfo))) ∧
    (∀ msg, missingFields inp.customerInfo = [] →
      inp.paymentMethod = "klarna" → env.klarna = .reject msg →
      (handleSubmit inp env).error = some ("Maksuvirhe: " ++ msg)) ∧
    (∀ resp, missingFields inp.customerInfo = [] →
      inp.paymentMethod = "klarna" → env.klarna = .resolve resp →
      optTruthy resp.html_snippet = false →
      optTruthy resp.redirect_url = false →
      (handleSubmit inp env).error =
        some "Maksuvirhe: No valid payment URL received from Klarna") ∧
    (∀ msg, missingFields inp.customerInfo = [] →
      inp.paymentMethod = "dummy" → env.orders = .reject msg →
      (handleSubmit inp env).error = some ("Maksuvirhe: " ++ msg)) ∧
    (missingFields inp.customerInfo = [] → inp.paymentMethod = "dummy" →
      env.orders = .resolve false →
      (handleSubmit inp env).error =
        some "Maksuvirhe: Tilausta ei voitu lähettää tietokantaan.") ∧
    (handleSubmit inp env).klarnaRequests.length ≤ 1 ∧
    (handleSubmit inp env).ordersRequests.length ≤ 1 ∧
    (handleSubmit inp env).isProcessing = false := by
  refine ⟨?_, ?_, ?_, ?_, ?_, ?_, ?_, ?_⟩
  · intro h
    unfold handleSubmit
    simp only [if_pos h]
  · intro msg hv hpm hk
    unfold handleSubmit
    simp only [if_neg (handleSubmit_valid_not_missing _ hv), hpm, if_pos rfl,
      if_true, hk]
  · intro resp hv hpm hk hs hr
    rw [handleSubmit_klarna_resolve inp env resp hv hpm hk,
      if_pos (by simp [hs, hr])]
  · intro msg hv hpm ho
    rw [handleSubmit_dummy_run inp env hv hpm]
    rw [ho]
  · intro hv hpm ho
    rw [handleSubmit_dummy_run inp env hv hpm]
    rw [ho]
    simp
  · unfold handleSubmit
    repeat' split
    all_goals try simp
    all_goals (split <;> simp)
  · unfold handleSubmit
    repeat' split
    all_goals try simp
    all_goals (split <;> simp)
  · unfold handleSubmit
    repeat' split
    all_goals try simp
    all_goals (split <;> simp)

/-- C8 witness: a concrete rejected Klarna call is surfaced as a
`Maksuvirhe` message in the error state, with one request issued and
`isProcessing` reset. -/
theorem all_failures_surfaced_witness :
    (handleSubmit sampleInputK envReject).error =
      some ("Maksuvirhe: " ++ "network down") ∧
    (handleSubmit sampleInputK envReject).klarnaRequests.length ≤ 1 ∧
    (handleSubmit sampleInputK envReject).isProcessing = false :=
  ⟨(all_failures_surfaced sampleInputK envReject).2.1 "network down"
      (by decide) rfl rfl,
   (all_failures_surfaced sampleInputK envReject).2.2.2.2.2.1,
   (all_failures_surfaced sampleInputK envReject).2.2.2.2.2.2.2⟩

end Kotilaatikko

namespace Kotilaatikko

/-- C4 witness: at the concrete empty cart the empty-cart state with the
shop link is rendered rather than the form. -/
theorem empty_cart_renders_empty_state_witness :
    renderCheckout [] (some "") = CheckoutView.emptyCart "/shop" ∧
    renderCheckout [] (some "") ≠ CheckoutView.checkoutForm :=
  empty_cart_renders_empty_state (some "")

end Kotilaatikko
